import Mathlib

/-!
Shallow embedding of the BMI270 driver core (stampfly_imu repository):
the FIFO frame decoder, FIFO configuration/length helpers from
`src/bmi270_fifo.c`, and a bus/bring-up timing model from the spec for the
parts of the driver (`bmi270_spi.c` / `bmi270_init.c`) whose sources are not
in the repository snapshot.

C machine types are embedded as follows: `uint8_t` values are `Nat` reduced
mod 256 at each array read; `uint16_t` quantities are `Nat` (no operation in
the embedded code can overflow 16 bits because inputs are bounded); `int16_t`
results are `Int` produced by an explicit two's-complement reinterpretation
of a 16-bit pattern; `esp_err_t` is a closed inductive of the error codes the
embedded functions can return.
-/

namespace BMI270

/-! ### Error codes (esp_err.h values used by the embedded functions) -/

inductive EspErr where
  | ESP_OK
  | ESP_ERR_INVALID_ARG
  | ESP_ERR_INVALID_SIZE
  | ESP_ERR_NOT_FOUND
  | ESP_ERR_INVALID_RESPONSE
deriving DecidableEq, Repr

/-! ### Register addresses and constants

Values from `include/bmi270_defs.h` where present there.  The FIFO-specific
macros used by `src/bmi270_fifo.c` (`BMI270_FIFO_HEAD_*`,
`BMI270_FIFO_FRAME_*_SIZE`, `BMI270_REG_FIFO_WTM_*`, the `FIFO_CONFIG`
registers and enable bits) are declared in a header that is absent from the
snapshot; their values are pinned by the in-repo evidence: the
`bmi270_fifo_frame_type_t` enum in `include/bmi270_fifo.h` (the code stores
the raw header byte into that enum, so header macros equal enum values), the
literal addresses and constants in `examples/stage5_fifo/*/main/main.c`
(0x46/0x47 watermark reads, 0x48/0x49 config registers, header 0x8C,
13-byte frames, 0xD0 expected enable byte, 2048 FIFO size), the comments in
`bmi270_fifo.c` itself, and the spec's frame table. -/

def BMI270_REG_INTERNAL_STATUS : Nat := 0x21
def BMI270_REG_FIFO_LENGTH_0 : Nat := 0x24
def BMI270_REG_FIFO_WTM_0 : Nat := 0x46
def BMI270_REG_FIFO_WTM_1 : Nat := 0x47
def BMI270_REG_FIFO_CONFIG_0 : Nat := 0x48
def BMI270_REG_FIFO_CONFIG_1 : Nat := 0x49
def BMI270_REG_INIT_CTRL : Nat := 0x59
def BMI270_REG_INIT_ADDR_0 : Nat := 0x5B
def BMI270_REG_INIT_ADDR_1 : Nat := 0x5C
def BMI270_REG_INIT_DATA : Nat := 0x5E
def BMI270_REG_PWR_CONF : Nat := 0x7C
def BMI270_REG_PWR_CTRL : Nat := 0x7D
def BMI270_REG_CMD : Nat := 0x7E

def BMI270_CMD_SOFT_RESET : Nat := 0xB6
def BMI270_INIT_CTRL_PREPARE : Nat := 0x00
def BMI270_INIT_CTRL_COMPLETE : Nat := 0x01
def BMI270_PWR_CONF_NORMAL : Nat := 0x02
def BMI270_INTERNAL_STATUS_MSG_MASK : Nat := 0x0F
def BMI270_INTERNAL_STATUS_MSG_INIT_OK : Nat := 0x01
def BMI270_INTERNAL_STATUS_MSG_INIT_ERR : Nat := 0x02
def BMI270_CONFIG_FILE_SIZE : Nat := 8192
def BMI270_CONFIG_BURST_SIZE : Nat := 256

def BMI270_FIFO_SIZE : Nat := 2048
def BMI270_FIFO_STOP_ON_FULL : Nat := 0x01
def BMI270_FIFO_HEADER_EN : Nat := 0x10
def BMI270_FIFO_ACC_EN : Nat := 0x40
def BMI270_FIFO_GYR_EN : Nat := 0x80

def BMI270_FIFO_HEAD_SKIP : Nat := 0x40
def BMI270_FIFO_HEAD_SENSOR_TIME : Nat := 0x44
def BMI270_FIFO_HEAD_CONFIG_CHANGE : Nat := 0x48
def BMI270_FIFO_HEAD_ACC : Nat := 0x84
def BMI270_FIFO_HEAD_GYR : Nat := 0x88
def BMI270_FIFO_HEAD_ACC_GYR : Nat := 0x8C

def BMI270_FIFO_FRAME_ACC_SIZE : Nat := 7
def BMI270_FIFO_FRAME_GYR_SIZE : Nat := 7
def BMI270_FIFO_FRAME_ACC_GYR_SIZE : Nat := 13

/-- Values of `bmi270_fifo_frame_type_t` (include/bmi270_fifo.h, lines 39-47).
The C enum is an integer type and `bmi270_parse_fifo_frame` stores a raw
header byte into it, so the frame `type` field is embedded as `Nat`. -/
def BMI270_FIFO_FRAME_SKIP : Nat := 0x40
def BMI270_FIFO_FRAME_SENSOR_TIME : Nat := 0x44
def BMI270_FIFO_FRAME_CONFIG_CHANGE : Nat := 0x48
def BMI270_FIFO_FRAME_ACC : Nat := 0x84
def BMI270_FIFO_FRAME_GYR : Nat := 0x88
def BMI270_FIFO_FRAME_ACC_GYR : Nat := 0x8C
def BMI270_FIFO_FRAME_UNKNOWN : Nat := 0xFF

/-! ### Bytes and 16-bit little-endian signed reads -/

/-- Read byte `i` of a `uint8_t` array embedded as `List Nat`; the mod 256
models `uint8_t` storage (it is the identity on in-range entries). Reads the
code never performs (the decoder guards every access with a length check)
default to 0. -/
def byteAt (data : List Nat) (i : Nat) : Nat := data.getD i 0 % 256

/-- Two's-complement reinterpretation of a 16-bit pattern, the meaning of the
C cast `(int16_t)v` for `0 <= v < 65536`. -/
def toInt16 (v : Nat) : Int :=
  if v % 65536 < 32768 then (v % 65536 : Int) else (v % 65536 : Int) - 65536

/-- `(int16_t)((data[p+1] << 8) | data[p])` — the little-endian signed 16-bit
field read used for every sensor word in `bmi270_parse_fifo_frame`. -/
def rd16 (data : List Nat) (p : Nat) : Int :=
  toInt16 ((byteAt data (p + 1)) <<< 8 ||| byteAt data p)

/-! ### FIFO frame decoder (src/bmi270_fifo.c, bmi270_parse_fifo_frame) -/

/-- One axis triple of raw `int16_t` samples (`bmi270_raw_data_t`). -/
structure RawData where
  x : Int
  y : Int
  z : Int
deriving DecidableEq, Repr

/-- `bmi270_fifo_frame_t`: the out-parameter of the decoder.  `type` holds a
`bmi270_fifo_frame_type_t` value as an integer (see above); `acc`/`gyr` keep
whatever they held before the call unless the decoded frame assigns them,
exactly as the C out-parameter does. -/
structure FifoFrame where
  type : Nat
  acc : RawData
  gyr : RawData
deriving DecidableEq, Repr

/-- An all-zero frame value, used as the pre-call content of the
out-parameter in concrete evaluations. -/
def emptyFrame : FifoFrame := ⟨0, ⟨0, 0, 0⟩, ⟨0, 0, 0⟩⟩

/-- The decode cursor: the `(const uint8_t **buffer, uint16_t *length)` pair
of `bmi270_parse_fifo_frame`, with the pointer embedded as an offset into the
underlying byte array. -/
structure Cursor where
  off : Nat
  len : Nat
deriving DecidableEq, Repr

/-- `bmi270_parse_fifo_frame` (src/bmi270_fifo.c, lines 138-231), for the
case of valid (non-null) pointers; the null-argument guard of the C code is
outside the memory model and touches nothing.  Returns the error code, the
cursor after the call, and the frame out-parameter after the call.

Faithfulness notes, mirroring the source line by line:
* `frame->type = (bmi270_fifo_frame_type_t)header` runs before the dispatch
  (line 154), so even error returns leave the raw header in `type`.
* in the combined-frame arm the gyroscope words are read from bytes 1-6 and
  the accelerometer words from bytes 7-12 (lines 196-203).
* the three special headers share one arm that overwrites `type` with
  `BMI270_FIFO_FRAME_SKIP` (line 213).
* the default arm sets `frame_size = 1` but returns `ESP_ERR_INVALID_RESPONSE`
  before reaching the advance at lines 227-228, so the cursor is unchanged. -/
def bmi270_parse_fifo_frame (data : List Nat) (c : Cursor) (frame : FifoFrame) :
    EspErr × Cursor × FifoFrame :=
  if c.len = 0 then
    (.ESP_ERR_NOT_FOUND, c, frame)
  else
    let header := byteAt data c.off
    let frame1 := { frame with type := header }
    if header = BMI270_FIFO_HEAD_ACC then
      if c.len < BMI270_FIFO_FRAME_ACC_SIZE then
        (.ESP_ERR_INVALID_SIZE, c, frame1)
      else
        let frame2 := { frame1 with
          acc := ⟨rd16 data (c.off + 1), rd16 data (c.off + 3), rd16 data (c.off + 5)⟩ }
        (.ESP_OK, ⟨c.off + BMI270_FIFO_FRAME_ACC_SIZE, c.len - BMI270_FIFO_FRAME_ACC_SIZE⟩,
          frame2)
    else if header = BMI270_FIFO_HEAD_GYR then
      if c.len < BMI270_FIFO_FRAME_GYR_SIZE then
        (.ESP_ERR_INVALID_SIZE, c, frame1)
      else
        let frame2 := { frame1 with
          gyr := ⟨rd16 data (c.off + 1), rd16 data (c.off + 3), rd16 data (c.off + 5)⟩ }
        (.ESP_OK, ⟨c.off + BMI270_FIFO_FRAME_GYR_SIZE, c.len - BMI270_FIFO_FRAME_GYR_SIZE⟩,
          frame2)
    else if header = BMI270_FIFO_HEAD_ACC_GYR then
      if c.len < BMI270_FIFO_FRAME_ACC_GYR_SIZE then
        (.ESP_ERR_INVALID_SIZE, c, frame1)
      else
        let frame2 := { frame1 with
          gyr := ⟨rd16 data (c.off + 1), rd16 data (c.off + 3), rd16 data (c.off + 5)⟩,
          acc := ⟨rd16 data (c.off + 7), rd16 data (c.off + 9), rd16 data (c.off + 11)⟩ }
        (.ESP_OK,
          ⟨c.off + BMI270_FIFO_FRAME_ACC_GYR_SIZE, c.len - BMI270_FIFO_FRAME_ACC_GYR_SIZE⟩,
          frame2)
    else if header = BMI270_FIFO_HEAD_SKIP ∨ header = BMI270_FIFO_HEAD_SENSOR_TIME ∨
        header = BMI270_FIFO_HEAD_CONFIG_CHANGE then
      (.ESP_OK, ⟨c.off + 1, c.len - 1⟩, { frame1 with type := BMI270_FIFO_FRAME_SKIP })
    else
      (.ESP_ERR_INVALID_RESPONSE, c, { frame1 with type := BMI270_FIFO_FRAME_UNKNOWN })

/-- The byte length consumed by a successfully decoded frame, per header
(the `frame_size` values of the switch arms). -/
def frameSizeOf (header : Nat) : Nat :=
  if header = BMI270_FIFO_HEAD_ACC then BMI270_FIFO_FRAME_ACC_SIZE
  else if header = BMI270_FIFO_HEAD_GYR then BMI270_FIFO_FRAME_GYR_SIZE
  else if header = BMI270_FIFO_HEAD_ACC_GYR then BMI270_FIFO_FRAME_ACC_GYR_SIZE
  else 1

/-- Iterate `bmi270_parse_fifo_frame` a fixed number of times, the way the
example decode loops call it, recording each call's error code together with
the frame `type` it produced. -/
def parseTrace (data : List Nat) :
    Nat → Cursor → FifoFrame → List (EspErr × Nat) × Cursor × FifoFrame
  | 0, c, f => ([], c, f)
  | k + 1, c, f =>
    let r := bmi270_parse_fifo_frame data c f
    let rest := parseTrace data k r.2.1 r.2.2
    ((r.1, r.2.2.type) :: rest.1, rest.2)

/-! ### FIFO configuration and length (src/bmi270_fifo.c) -/

/-- `bmi270_fifo_config_t` (include/bmi270_fifo.h, lines 28-34); the C
`watermark` field is a `uint16_t`, embedded as `Nat` (the function below is
stated and proved for all `Nat`, which subsumes the 16-bit range). -/
structure FifoConfig where
  acc_enable : Bool
  gyr_enable : Bool
  header_enable : Bool
  stop_on_full : Bool
  watermark : Nat
deriving DecidableEq, Repr

/-- `bmi270_configure_fifo` (src/bmi270_fifo.c, lines 17-84), embedded as the
sequence of `(register, value)` pairs it passes to `bmi270_write_register`,
in program order, for the run in which every bus write succeeds (on a failed
write the C code stops early and performs no further writes; the claims are
about the written values). -/
def bmi270_configure_fifo (config : FifoConfig) : List (Nat × Nat) :=
  let fifo_config_0 : Nat := if config.stop_on_full then BMI270_FIFO_STOP_ON_FULL else 0x00
  let fifo_config_1 : Nat :=
    (if config.acc_enable then BMI270_FIFO_ACC_EN else 0) |||
    (if config.gyr_enable then BMI270_FIFO_GYR_EN else 0) |||
    (if config.header_enable then BMI270_FIFO_HEADER_EN else 0)
  let base := [(BMI270_REG_FIFO_CONFIG_0, fifo_config_0),
               (BMI270_REG_FIFO_CONFIG_1, fifo_config_1)]
  if config.watermark > 0 then
    let watermark_value := if config.watermark > 2047 then 2047 else config.watermark
    base ++ [(BMI270_REG_FIFO_WTM_0, watermark_value &&& 0xFF),
             (BMI270_REG_FIFO_WTM_1, (watermark_value >>> 8) &&& 0x1F)]
  else
    base

/-- `bmi270_get_fifo_length` (src/bmi270_fifo.c, lines 89-108) as a function
of the two raw bytes the burst read returns from `FIFO_LENGTH_0/1`:
`*length = (uint16_t)((length_data[1] << 8) | length_data[0]) & 0x07FF`. -/
def bmi270_get_fifo_length (lo hi : Nat) : Nat :=
  ((hi <<< 8) ||| lo) &&& 0x07FF

/-! ### Bus timing and bring-up model

Modelled from the spec: `bmi270_spi.c` (the bus access layer with its
mode-dependent settle delay and `bmi270_set_init_complete`) and
`bmi270_init.c` (the bring-up sequence) are not in the repository snapshot —
only `include/bmi270_spi.h` declares them.  The model below follows spec
sections 4.1 (bus layer, `mark_bring_up_complete`) and 4.2 (bring-up state
machine), with the device handle reduced to the one field the claim is
about (`init_complete`, include/bmi270_types.h line 35). -/

/-- The two settle-delay regimes of spec section 3 "Register Access Mode". -/
inductive Timing where
  | suspend
  | normal
deriving DecidableEq, Repr

/-- Modelled from the spec: the device handle (`bmi270_dev_t`), reduced to
the `init_complete` flag that selects the settle-delay regime. -/
structure SpiDev where
  init_complete : Bool
deriving DecidableEq, Repr

/-- Register Access Mode is derived state: selected by `init_complete`. -/
def currentTiming (d : SpiDev) : Timing :=
  if d.init_complete then .normal else .suspend

/-- Modelled from the spec: `bmi270_set_init_complete` /
`mark_bring_up_complete()` — sets the flag, reverting nothing else. -/
def bmi270_set_init_complete (d : SpiDev) : SpiDev :=
  { d with init_complete := true }

/-- One observable bus event: a register write or read stamped with the
timing regime in force when it ran, or the bring-up-complete transition. -/
inductive BusEv where
  | wr (t : Timing) (reg val : Nat)
  | rd (t : Timing) (reg val : Nat)
  | mark
deriving DecidableEq, Repr

/-- Modelled from the spec: `bmi270_write_register` at the trace level —
emits a write stamped with the current timing regime; no bus operation
touches `init_complete`. -/
def bmi270_write_register (d : SpiDev) (reg val : Nat) : BusEv × SpiDev :=
  (.wr (currentTiming d) reg val, d)

/-- Modelled from the spec: `bmi270_read_register` at the trace level; `val`
is the byte the chip returns. -/
def bmi270_read_register (d : SpiDev) (reg val : Nat) : BusEv × SpiDev :=
  (.rd (currentTiming d) reg val, d)

/-- Modelled from the spec (section 4.2, ConfigUploading): one 256-byte
chunk upload — the chunk's offset, split into two init-address register
writes, followed by the burst write of the chunk to `INIT_DATA` (the burst
is one bus transaction, recorded as one write event carrying the chunk
index). -/
def uploadChunk (d : SpiDev) (i : Nat) : List BusEv :=
  [(bmi270_write_register d BMI270_REG_INIT_ADDR_0 ((i * BMI270_CONFIG_BURST_SIZE / 2) &&& 0x0F)).1,
   (bmi270_write_register d BMI270_REG_INIT_ADDR_1 ((i * BMI270_CONFIG_BURST_SIZE / 2) >>> 4)).1,
   (bmi270_write_register d BMI270_REG_INIT_DATA i).1]

/-- All config-blob chunk uploads for chunks `0..n-1`. -/
def uploadEvents (d : SpiDev) : Nat → List BusEv
  | 0 => []
  | i + 1 => uploadEvents d i ++ uploadChunk d i

/-- Modelled from the spec (section 4.2, Verifying): poll the internal
status register's low 4 bits until `INIT_OK` (success), `INIT_ERR`
(failure), or the iteration bound runs out (timeout).  `status n` is the
byte the chip returns on the poll iteration with `n` iterations of budget
left. -/
def pollInternalStatus (status : Nat → Nat) (d : SpiDev) : Nat → List BusEv × Bool
  | 0 => ([], false)
  | fuel + 1 =>
    let s := status fuel
    let ev := (bmi270_read_register d BMI270_REG_INTERNAL_STATUS s).1
    if s &&& BMI270_INTERNAL_STATUS_MSG_MASK = BMI270_INTERNAL_STATUS_MSG_INIT_OK then
      ([ev], true)
    else if s &&& BMI270_INTERNAL_STATUS_MSG_MASK = BMI270_INTERNAL_STATUS_MSG_INIT_ERR then
      ([ev], false)
    else
      let rest := pollInternalStatus status d fuel
      (ev :: rest.1, rest.2)

/-- Modelled from the spec: the events of the Reset, PowerPrepared,
ConfigUploading, ConfigUploaded and Verifying steps, in order — everything
the bring-up sequence puts on the bus before it may call
`mark_bring_up_complete`. -/
def preTrace (status : Nat → Nat) (d : SpiDev) (fuel : Nat) : List BusEv :=
  ((bmi270_write_register d BMI270_REG_CMD BMI270_CMD_SOFT_RESET).1 ::
   (bmi270_write_register d BMI270_REG_PWR_CONF 0x00).1 ::
   (bmi270_write_register d BMI270_REG_INIT_CTRL BMI270_INIT_CTRL_PREPARE).1 ::
   (uploadEvents d (BMI270_CONFIG_FILE_SIZE / BMI270_CONFIG_BURST_SIZE) ++
    [(bmi270_write_register d BMI270_REG_INIT_CTRL BMI270_INIT_CTRL_COMPLETE).1])) ++
  (pollInternalStatus status d fuel).1

/-- Modelled from the spec: the sensor-enable writes of the Ready step,
issued on the handle after `mark_bring_up_complete`. -/
def postTrace (d' : SpiDev) : List BusEv :=
  [(bmi270_write_register d' BMI270_REG_PWR_CTRL 0x0E).1,
   (bmi270_write_register d' BMI270_REG_PWR_CONF BMI270_PWR_CONF_NORMAL).1]

/-- Modelled from the spec (section 4.2): the bring-up sequence
`Reset → PowerPrepared → ConfigUploading → ConfigUploaded → Verifying →
Ready/Failed`, returning the bus-event trace, the final handle, and whether
the sequence reached `Ready`.  `mark_bring_up_complete` is called only in
the `Ready` step, after the verification poll has read `INIT_OK`; the
sensor-enable writes of the `Ready` step follow it and therefore run in
normal timing. -/
def bring_up (status : Nat → Nat) (d : SpiDev) (fuel : Nat) : List BusEv × SpiDev × Bool :=
  let polled := pollInternalStatus status d fuel
  if polled.2 then
    (preTrace status d fuel ++ BusEv.mark :: postTrace (bmi270_set_init_complete d),
      bmi270_set_init_complete d, true)
  else
    (preTrace status d fuel, d, false)

/-- An event is a read of the internal status register, in suspend timing,
whose low 4 bits decode to `INIT_OK`. -/
def isInitOkRead : BusEv → Prop
  | .rd t reg v => t = .suspend ∧ reg = BMI270_REG_INTERNAL_STATUS ∧
      v &&& BMI270_INTERNAL_STATUS_MSG_MASK = BMI270_INTERNAL_STATUS_MSG_INIT_OK
  | _ => False

/-! ### Concrete inputs used by witness evaluations, and the little-endian
signed 16-bit reading predicate used to state the layout claim -/

/-- `v` is the little-endian signed 16-bit value with low byte `lo` and high
byte `hi`: it matches `lo + 256*hi` modulo 2^16 and lies in the `int16_t`
range.  These two conditions determine `v` uniquely, so they pin each frame
field to its exact source bytes. -/
def IsLE16 (lo hi : Nat) (v : Int) : Prop :=
  v % 65536 = ((lo + 256 * hi : Nat) : Int) % 65536 ∧ -32768 ≤ v ∧ v < 32768

def c1data : List Nat :=
  [0x8C, 0x01, 0x02, 0x03, 0x84, 0x05, 0x06, 0x07, 0x08, 0x09, 0x0A, 0x0B, 0x8C]

def c4data : List Nat :=
  [0x8C, 1, 2, 3, 4, 5, 6, 7, 8, 9, 10, 11, 12,
   0x8C, 21, 22, 23, 24, 25, 26, 27, 28, 29, 30, 31, 32]

def cfg512 : FifoConfig := ⟨true, true, true, false, 512⟩

def cfg3000 : FifoConfig := ⟨true, true, true, false, 3000⟩

def okStatus : Nat → Nat := fun _ => 1

def c10data : List Nat := [0x84, 1, 2, 3, 4, 5, 6]

theorem byteAt_lt (data : List Nat) (i : Nat) : byteAt data i < 256 :=
  Nat.mod_lt _ (by decide)

theorem shiftLeft8_lor (a b : Nat) (hb : b < 256) : (a <<< 8) ||| b = 256 * a + b := by
  have h : a <<< 8 = 2 ^ 8 * a := by rw [Nat.shiftLeft_eq]; ring
  have hb' : b < 2 ^ 8 := by norm_num [hb]
  rw [h, ← Nat.mul_add_lt_is_or hb' a]

theorem and_255_eq (x : Nat) : x &&& 255 = x % 256 := by
  have h := Nat.and_pow_two_sub_one_eq_mod x 8
  norm_num at h
  exact h

theorem and_31_eq (x : Nat) : x &&& 31 = x % 32 := by
  have h := Nat.and_pow_two_sub_one_eq_mod x 5
  norm_num at h
  exact h

theorem and_2047_eq (x : Nat) : x &&& 2047 = x % 2048 := by
  have h := Nat.and_pow_two_sub_one_eq_mod x 11
  norm_num at h
  exact h

theorem toInt16_spec (v : Nat) :
    toInt16 v % 65536 = (v : Int) % 65536 ∧ -32768 ≤ toInt16 v ∧ toInt16 v < 32768 := by
  unfold toInt16
  split <;> omega

theorem byteAt_window (d : List Nat) (o n i : Nat) (hi : i < n) :
    byteAt ((d.drop o).take n) i = byteAt d (o + i) := by
  unfold byteAt
  rw [List.getD_eq_getElem?_getD, List.getD_eq_getElem?_getD,
      List.getElem?_take_of_lt hi, List.getElem?_drop]

theorem parse_len_zero (data : List Nat) (c : Cursor) (f : FifoFrame) (h : c.len = 0) :
    bmi270_parse_fifo_frame data c f = (.ESP_ERR_NOT_FOUND, c, f) := by
  simp [bmi270_parse_fifo_frame, h]

theorem parse_accGyr_step (data : List Nat) (off len : Nat) (f : FifoFrame)
    (hh : byteAt data off = BMI270_FIFO_HEAD_ACC_GYR) (hlen : 13 ≤ len) :
    bmi270_parse_fifo_frame data ⟨off, len⟩ f =
      (.ESP_OK, ⟨off + 13, len - 13⟩,
        { type := BMI270_FIFO_HEAD_ACC_GYR,
          acc := ⟨rd16 data (off + 7), rd16 data (off + 9), rd16 data (off + 11)⟩,
          gyr := ⟨rd16 data (off + 1), rd16 data (off + 3), rd16 data (off + 5)⟩ }) := by
  have h0 : ¬(len = 0) := by omega
  have h13 : ¬(len < BMI270_FIFO_FRAME_ACC_GYR_SIZE) := by
    simp only [BMI270_FIFO_FRAME_ACC_GYR_SIZE]; omega
  simp only [bmi270_parse_fifo_frame, hh, h0, if_false,
    BMI270_FIFO_HEAD_ACC, BMI270_FIFO_HEAD_GYR, BMI270_FIFO_HEAD_ACC_GYR,
    BMI270_FIFO_HEAD_SKIP, BMI270_FIFO_HEAD_SENSOR_TIME, BMI270_FIFO_HEAD_CONFIG_CHANGE,
    BMI270_FIFO_FRAME_ACC_GYR_SIZE, h13]
  norm_num
  omega

theorem parse_acc_step (data : List Nat) (off len : Nat) (f : FifoFrame)
    (hh : byteAt data off = BMI270_FIFO_HEAD_ACC) (hlen : 7 ≤ len) :
    bmi270_parse_fifo_frame data ⟨off, len⟩ f =
      (.ESP_OK, ⟨off + 7, len - 7⟩,
        { type := BMI270_FIFO_HEAD_ACC,
          acc := ⟨rd16 data (off + 1), rd16 data (off + 3), rd16 data (off + 5)⟩,
          gyr := f.gyr }) := by
  have h0 : ¬(len = 0) := by omega
  have h7 : ¬(len < BMI270_FIFO_FRAME_ACC_SIZE) := by
    simp only [BMI270_FIFO_FRAME_ACC_SIZE]; omega
  simp only [bmi270_parse_fifo_frame, hh, h0, if_false,
    BMI270_FIFO_HEAD_ACC, BMI270_FIFO_FRAME_ACC_SIZE, h7]
  norm_num
  omega

theorem parse_gyr_step (data : List Nat) (off len : Nat) (f : FifoFrame)
    (hh : byteAt data off = BMI270_FIFO_HEAD_GYR) (hlen : 7 ≤ len) :
    bmi270_parse_fifo_frame data ⟨off, len⟩ f =
      (.ESP_OK, ⟨off + 7, len - 7⟩,
        { type := BMI270_FIFO_HEAD_GYR,
          acc := f.acc,
          gyr := ⟨rd16 data (off + 1), rd16 data (off + 3), rd16 data (off + 5)⟩ }) := by
  have h0 : ¬(len = 0) := by omega
  have h7 : ¬(len < BMI270_FIFO_FRAME_GYR_SIZE) := by
    simp only [BMI270_FIFO_FRAME_GYR_SIZE]; omega
  simp only [bmi270_parse_fifo_frame, hh, h0, if_false,
    BMI270_FIFO_HEAD_ACC, BMI270_FIFO_HEAD_GYR, BMI270_FIFO_FRAME_GYR_SIZE, h7]
  norm_num
  omega

theorem parse_marker_step (data : List Nat) (off len : Nat) (f : FifoFrame)
    (hh : byteAt data off = BMI270_FIFO_HEAD_SKIP ∨
          byteAt data off = BMI270_FIFO_HEAD_SENSOR_TIME ∨
          byteAt data off = BMI270_FIFO_HEAD_CONFIG_CHANGE)
    (hlen : 1 ≤ len) :
    bmi270_parse_fifo_frame data ⟨off, len⟩ f =
      (.ESP_OK, ⟨off + 1, len - 1⟩,
        { type := BMI270_FIFO_FRAME_SKIP, acc := f.acc, gyr := f.gyr }) := by
  have h0 : ¬(len = 0) := by omega
  have hne1 : ¬(byteAt data off = BMI270_FIFO_HEAD_ACC) := by
    rcases hh with h | h | h <;> simp [h] <;> decide
  have hne2 : ¬(byteAt data off = BMI270_FIFO_HEAD_GYR) := by
    rcases hh with h | h | h <;> simp [h] <;> decide
  have hne3 : ¬(byteAt data off = BMI270_FIFO_HEAD_ACC_GYR) := by
    rcases hh with h | h | h <;> simp [h] <;> decide
  simp only [bmi270_parse_fifo_frame, h0, if_false, hne1, hne2, hne3, hh, if_true]

theorem parse_unknown_step (data : List Nat) (off len : Nat) (f : FifoFrame)
    (hh : byteAt data off ≠ BMI270_FIFO_HEAD_ACC ∧
          byteAt data off ≠ BMI270_FIFO_HEAD_GYR ∧
          byteAt data off ≠ BMI270_FIFO_HEAD_ACC_GYR ∧
          byteAt data off ≠ BMI270_FIFO_HEAD_SKIP ∧
          byteAt data off ≠ BMI270_FIFO_HEAD_SENSOR_TIME ∧
          byteAt data off ≠ BMI270_FIFO_HEAD_CONFIG_CHANGE)
    (hlen : 1 ≤ len) :
    bmi270_parse_fifo_frame data ⟨off, len⟩ f =
      (.ESP_ERR_INVALID_RESPONSE, ⟨off, len⟩,
        { type := BMI270_FIFO_FRAME_UNKNOWN, acc := f.acc, gyr := f.gyr }) := by
  have h0 : ¬(len = 0) := by omega
  obtain ⟨h1, h2, h3, h4, h5, h6⟩ := hh
  simp only [bmi270_parse_fifo_frame, h0, if_false, h1, h2, h3, h4, h5, h6]
  norm_num

theorem parse_truncated_step (data : List Nat) (off len : Nat) (f : FifoFrame)
    (hh : byteAt data off = BMI270_FIFO_HEAD_ACC ∨
          byteAt data off = BMI270_FIFO_HEAD_GYR ∨
          byteAt data off = BMI270_FIFO_HEAD_ACC_GYR)
    (h0 : 1 ≤ len) (hlen : len < frameSizeOf (byteAt data off)) :
    bmi270_parse_fifo_frame data ⟨off, len⟩ f =
      (.ESP_ERR_INVALID_SIZE, ⟨off, len⟩,
        { type := byteAt data off, acc := f.acc, gyr := f.gyr }) := by
  have h0' : ¬(len = 0) := by omega
  rcases hh with h | h | h <;>
    simp only [frameSizeOf, h, BMI270_FIFO_HEAD_ACC, BMI270_FIFO_HEAD_GYR,
      BMI270_FIFO_HEAD_ACC_GYR, BMI270_FIFO_FRAME_ACC_SIZE, BMI270_FIFO_FRAME_GYR_SIZE,
      BMI270_FIFO_FRAME_ACC_GYR_SIZE] at hlen ⊢ <;>
    simp only [bmi270_parse_fifo_frame, h, h0', if_false,
      BMI270_FIFO_HEAD_ACC, BMI270_FIFO_HEAD_GYR, BMI270_FIFO_HEAD_ACC_GYR,
      BMI270_FIFO_FRAME_ACC_SIZE, BMI270_FIFO_FRAME_GYR_SIZE,
      BMI270_FIFO_FRAME_ACC_GYR_SIZE] <;>
    norm_num <;> (norm_num at hlen; omega)

theorem parse_cases (data : List Nat) (c : Cursor) (f : FifoFrame) :
    ((bmi270_parse_fifo_frame data c f).1 = .ESP_OK ∧
     (bmi270_parse_fifo_frame data c f).2.1.off = c.off + frameSizeOf (byteAt data c.off) ∧
     (bmi270_parse_fifo_frame data c f).2.1.len + frameSizeOf (byteAt data c.off) = c.len) ∨
    ((bmi270_parse_fifo_frame data c f).1 ≠ .ESP_OK ∧
     (bmi270_parse_fifo_frame data c f).2.1 = c) := by
  obtain ⟨off, len⟩ := c
  simp only [bmi270_parse_fifo_frame]
  split_ifs with h0 h1 h2 h3 h4 h5 h6 h7
  · right; exact ⟨by simp, rfl⟩
  · right; exact ⟨by simp, rfl⟩
  · left
    refine ⟨rfl, ?_, ?_⟩ <;>
      simp only [frameSizeOf, h1, if_true, BMI270_FIFO_FRAME_ACC_SIZE] <;>
      simp only [BMI270_FIFO_FRAME_ACC_SIZE] at h2 <;> omega
  · right; exact ⟨by simp, rfl⟩
  · left
    refine ⟨rfl, ?_, ?_⟩ <;>
      simp only [frameSizeOf, h1, h3, BMI270_FIFO_HEAD_ACC, BMI270_FIFO_HEAD_GYR,
        BMI270_FIFO_FRAME_GYR_SIZE] <;>
      simp only [BMI270_FIFO_FRAME_GYR_SIZE] at h4 <;>
      norm_num <;> omega
  · right; exact ⟨by simp, rfl⟩
  · left
    refine ⟨rfl, ?_, ?_⟩ <;>
      simp only [frameSizeOf, h1, h3, h5, BMI270_FIFO_HEAD_ACC, BMI270_FIFO_HEAD_GYR,
        BMI270_FIFO_HEAD_ACC_GYR, BMI270_FIFO_FRAME_ACC_GYR_SIZE] <;>
      simp only [BMI270_FIFO_FRAME_ACC_GYR_SIZE] at h6 <;>
      norm_num <;> omega
  · left
    refine ⟨rfl, ?_, ?_⟩ <;>
      rcases h7 with h | h | h <;>
      simp only [frameSizeOf, h, BMI270_FIFO_HEAD_ACC, BMI270_FIFO_HEAD_GYR,
        BMI270_FIFO_HEAD_ACC_GYR, BMI270_FIFO_HEAD_SKIP, BMI270_FIFO_HEAD_SENSOR_TIME,
        BMI270_FIFO_HEAD_CONFIG_CHANGE] <;>
      norm_num <;> omega
  · right; exact ⟨by simp, rfl⟩

theorem byteAt_eq_of_window_eq {d₁ d₂ : List Nat} {o₁ o₂ n : Nat}
    (h : (d₁.drop o₁).take n = (d₂.drop o₂).take n) {i : Nat} (hi : i < n) :
    byteAt d₁ (o₁ + i) = byteAt d₂ (o₂ + i) := by
  rw [← byteAt_window d₁ o₁ n i hi, ← byteAt_window d₂ o₂ n i hi, h]

theorem rd16_eq_of_window_eq {d₁ d₂ : List Nat} {o₁ o₂ n : Nat}
    (h : (d₁.drop o₁).take n = (d₂.drop o₂).take n) {j : Nat} (hj : j + 1 < n) :
    rd16 d₁ (o₁ + j) = rd16 d₂ (o₂ + j) := by
  unfold rd16
  have e₁ : o₁ + j + 1 = o₁ + (j + 1) := by omega
  have e₂ : o₂ + j + 1 = o₂ + (j + 1) := by omega
  rw [e₁, e₂, byteAt_eq_of_window_eq h hj, byteAt_eq_of_window_eq h (by omega : j < n)]

theorem parse_window_agree (data₁ data₂ : List Nat) (o₁ o₂ n : Nat) (f : FifoFrame)
    (hw : (data₁.drop o₁).take n = (data₂.drop o₂).take n) :
    (bmi270_parse_fifo_frame data₂ ⟨o₂, n⟩ f).1 =
      (bmi270_parse_fifo_frame data₁ ⟨o₁, n⟩ f).1 ∧
    (bmi270_parse_fifo_frame data₂ ⟨o₂, n⟩ f).2.2 =
      (bmi270_parse_fifo_frame data₁ ⟨o₁, n⟩ f).2.2 ∧
    (bmi270_parse_fifo_frame data₂ ⟨o₂, n⟩ f).2.1.len =
      (bmi270_parse_fifo_frame data₁ ⟨o₁, n⟩ f).2.1.len ∧
    (bmi270_parse_fifo_frame data₂ ⟨o₂, n⟩ f).2.1.off - o₂ =
      (bmi270_parse_fifo_frame data₁ ⟨o₁, n⟩ f).2.1.off - o₁ := by
  by_cases h0 : n = 0
  · subst h0
    rw [parse_len_zero data₁ _ f rfl, parse_len_zero data₂ _ f rfl]
    simp
  have h0' : 1 ≤ n := by omega
  have hhead : byteAt data₁ o₁ = byteAt data₂ o₂ := by
    have := byteAt_eq_of_window_eq hw (show 0 < n by omega)
    simpa using this
  by_cases hA : byteAt data₁ o₁ = BMI270_FIFO_HEAD_ACC
  · have hA₂ : byteAt data₂ o₂ = BMI270_FIFO_HEAD_ACC := hhead.symm.trans hA
    by_cases hsz : n < 7
    · rw [parse_truncated_step data₁ o₁ n f (Or.inl hA) h0'
            (by simp only [frameSizeOf, hA, if_true, BMI270_FIFO_FRAME_ACC_SIZE]; omega),
          parse_truncated_step data₂ o₂ n f (Or.inl hA₂) h0'
            (by simp only [frameSizeOf, hA₂, if_true, BMI270_FIFO_FRAME_ACC_SIZE]; omega)]
      simp [hA, hA₂, hhead]
    · have hsz' : 7 ≤ n := by omega
      rw [parse_acc_step data₁ o₁ n f hA hsz', parse_acc_step data₂ o₂ n f hA₂ hsz']
      refine ⟨rfl, ?_, rfl, by simp⟩
      rw [rd16_eq_of_window_eq hw (show (1:Nat) + 1 < n by omega),
        rd16_eq_of_window_eq hw (show (3:Nat) + 1 < n by omega),
        rd16_eq_of_window_eq hw (show (5:Nat) + 1 < n by omega)]
  by_cases hG : byteAt data₁ o₁ = BMI270_FIFO_HEAD_GYR
  · have hG₂ : byteAt data₂ o₂ = BMI270_FIFO_HEAD_GYR := hhead.symm.trans hG
    by_cases hsz : n < 7
    · rw [parse_truncated_step data₁ o₁ n f (Or.inr (Or.inl hG)) h0'
            (by simp only [frameSizeOf, hG, BMI270_FIFO_HEAD_ACC, BMI270_FIFO_HEAD_GYR,
                  BMI270_FIFO_FRAME_GYR_SIZE]; norm_num; omega),
          parse_truncated_step data₂ o₂ n f (Or.inr (Or.inl hG₂)) h0'
            (by simp only [frameSizeOf, hG₂, BMI270_FIFO_HEAD_ACC, BMI270_FIFO_HEAD_GYR,
                  BMI270_FIFO_FRAME_GYR_SIZE]; norm_num; omega)]
      simp [hG, hG₂, hhead]
    · have hsz' : 7 ≤ n := by omega
      rw [parse_gyr_step data₁ o₁ n f hG hsz', parse_gyr_step data₂ o₂ n f hG₂ hsz']
      refine ⟨rfl, ?_, rfl, by simp⟩
      rw [rd16_eq_of_window_eq hw (show (1:Nat) + 1 < n by omega),
        rd16_eq_of_window_eq hw (show (3:Nat) + 1 < n by omega),
        rd16_eq_of_window_eq hw (show (5:Nat) + 1 < n by omega)]
  by_cases hC : byteAt data₁ o₁ = BMI270_FIFO_HEAD_ACC_GYR
  · have hC₂ : byteAt data₂ o₂ = BMI270_FIFO_HEAD_ACC_GYR := hhead.symm.trans hC
    by_cases hsz : n < 13
    · rw [parse_truncated_step data₁ o₁ n f (Or.inr (Or.inr hC)) h0'
            (by simp only [frameSizeOf, hC, BMI270_FIFO_HEAD_ACC, BMI270_FIFO_HEAD_GYR,
                  BMI270_FIFO_HEAD_ACC_GYR, BMI270_FIFO_FRAME_ACC_GYR_SIZE]; norm_num; omega),
          parse_truncated_step data₂ o₂ n f (Or.inr (Or.inr hC₂)) h0'
            (by simp only [frameSizeOf, hC₂, BMI270_FIFO_HEAD_ACC, BMI270_FIFO_HEAD_GYR,
                  BMI270_FIFO_HEAD_ACC_GYR, BMI270_FIFO_FRAME_ACC_GYR_SIZE]; norm_num; omega)]
      simp [hC, hC₂, hhead]
    · have hsz' : 13 ≤ n := by omega
      rw [parse_accGyr_step data₁ o₁ n f hC hsz', parse_accGyr_step data₂ o₂ n f hC₂ hsz']
      refine ⟨rfl, ?_, rfl, by simp⟩
      rw [rd16_eq_of_window_eq hw (show (1:Nat) + 1 < n by omega),
        rd16_eq_of_window_eq hw (show (3:Nat) + 1 < n by omega),
        rd16_eq_of_window_eq hw (show (5:Nat) + 1 < n by omega),
        rd16_eq_of_window_eq hw (show (7:Nat) + 1 < n by omega),
        rd16_eq_of_window_eq hw (show (9:Nat) + 1 < n by omega),
        rd16_eq_of_window_eq hw (show (11:Nat) + 1 < n by omega)]
  by_cases hM : byteAt data₁ o₁ = BMI270_FIFO_HEAD_SKIP ∨
      byteAt data₁ o₁ = BMI270_FIFO_HEAD_SENSOR_TIME ∨
      byteAt data₁ o₁ = BMI270_FIFO_HEAD_CONFIG_CHANGE
  · have hM₂ : byteAt data₂ o₂ = BMI270_FIFO_HEAD_SKIP ∨
        byteAt data₂ o₂ = BMI270_FIFO_HEAD_SENSOR_TIME ∨
        byteAt data₂ o₂ = BMI270_FIFO_HEAD_CONFIG_CHANGE := by
      rcases hM with h | h | h
      · exact Or.inl (hhead.symm.trans h)
      · exact Or.inr (Or.inl (hhead.symm.trans h))
      · exact Or.inr (Or.inr (hhead.symm.trans h))
    rw [parse_marker_step data₁ o₁ n f hM h0', parse_marker_step data₂ o₂ n f hM₂ h0']
    exact ⟨rfl, rfl, rfl, by simp⟩
  · push_neg at hM
    have hU₂ : byteAt data₂ o₂ ≠ BMI270_FIFO_HEAD_ACC ∧
        byteAt data₂ o₂ ≠ BMI270_FIFO_HEAD_GYR ∧
        byteAt data₂ o₂ ≠ BMI270_FIFO_HEAD_ACC_GYR ∧
        byteAt data₂ o₂ ≠ BMI270_FIFO_HEAD_SKIP ∧
        byteAt data₂ o₂ ≠ BMI270_FIFO_HEAD_SENSOR_TIME ∧
        byteAt data₂ o₂ ≠ BMI270_FIFO_HEAD_CONFIG_CHANGE := by
      rw [← hhead]
      exact ⟨hA, hG, hC, hM.1, hM.2.1, hM.2.2⟩
    rw [parse_unknown_step data₁ o₁ n f ⟨hA, hG, hC, hM.1, hM.2.1, hM.2.2⟩ h0',
        parse_unknown_step data₂ o₂ n f hU₂ h0']
    exact ⟨rfl, rfl, rfl, by simp⟩

theorem rd16_isLE16 (data : List Nat) (p : Nat) :
    IsLE16 (byteAt data p) (byteAt data (p + 1)) (rd16 data p) := by
  unfold IsLE16 rd16
  rw [shiftLeft8_lor _ _ (byteAt_lt data p)]
  have h := toInt16_spec (256 * byteAt data (p + 1) + byteAt data p)
  refine ⟨?_, h.2.1, h.2.2⟩
  rw [h.1]
  push_cast
  ring_nf

/-- C4: for every k, on a window of length `13*k` whose every 13-byte
stride starts with header 0x8C, k successive calls to
`bmi270_parse_fifo_frame` all return `ESP_OK` with frame type ACC-AND-GYR,
after which the remaining length is 0 and the next call returns
`ESP_ERR_NOT_FOUND`. -/
theorem parse_homogeneous_acc_gyr_stream (data : List Nat) (k off : Nat) (f : FifoFrame)
    (hhead : ∀ j, j < k → byteAt data (off + 13 * j) = BMI270_FIFO_HEAD_ACC_GYR) :
    (parseTrace data k ⟨off, 13 * k⟩ f).1 =
      List.replicate k (EspErr.ESP_OK, BMI270_FIFO_FRAME_ACC_GYR) ∧
    (parseTrace data k ⟨off, 13 * k⟩ f).2.1 = ⟨off + 13 * k, 0⟩ ∧
    (bmi270_parse_fifo_frame data (parseTrace data k ⟨off, 13 * k⟩ f).2.1
        (parseTrace data k ⟨off, 13 * k⟩ f).2.2).1 = .ESP_ERR_NOT_FOUND := by
  induction k generalizing off f with
  | zero =>
    refine ⟨rfl, by simp [parseTrace], ?_⟩
    rw [parse_len_zero data _ _ rfl]
  | succ k ih =>
    have hh0 : byteAt data off = BMI270_FIFO_HEAD_ACC_GYR := by
      have := hhead 0 (Nat.succ_pos k)
      simpa using this
    have hlen : 13 ≤ 13 * (k + 1) := by omega
    have hstep := parse_accGyr_step data off (13 * (k + 1)) f hh0 hlen
    have hsub : 13 * (k + 1) - 13 = 13 * k := by omega
    rw [hsub] at hstep
    have hhead' : ∀ j, j < k →
        byteAt data (off + 13 + 13 * j) = BMI270_FIFO_HEAD_ACC_GYR := by
      intro j hj
      have h := hhead (j + 1) (by omega)
      have harith : off + 13 * (j + 1) = off + 13 + 13 * j := by ring
      rwa [harith] at h
    obtain ⟨ih1, ih2, ih3⟩ := ih (off + 13)
      ({ type := BMI270_FIFO_HEAD_ACC_GYR,
         acc := ⟨rd16 data (off + 7), rd16 data (off + 9), rd16 data (off + 11)⟩,
         gyr := ⟨rd16 data (off + 1), rd16 data (off + 3), rd16 data (off + 5)⟩ }) hhead'
    simp only [parseTrace, hstep]
    refine ⟨?_, ?_, ?_⟩
    · rw [List.replicate_succ]
      simp only [ih1]
      rfl
    · rw [ih2]
      have : off + 13 + 13 * k = off + 13 * (k + 1) := by ring
      rw [this]
    · exact ih3

/-- C6: for every configuration with watermark w > 0,
`bmi270_configure_fifo` writes the two FIFO_CONFIG registers and then the
low 8 bits of the (clamped) watermark to FIFO_WTM_0 and its bits 12-8 masked
to 5 bits to FIFO_WTM_1, so that `lo + 256*hi` reconstructs `min w 2047`
exactly: values up to 2047 round-trip unchanged (512 to 512) and larger
values clamp to 2047 (3000 to 2047).  The split is in byte units — the
reconstruction equals w itself, not a 4-byte-word multiple. -/
theorem configure_fifo_watermark_roundtrip (config : FifoConfig) (hw : 0 < config.watermark) :
    ∃ c0 c1 lo hi,
      bmi270_configure_fifo config =
        [(BMI270_REG_FIFO_CONFIG_0, c0), (BMI270_REG_FIFO_CONFIG_1, c1),
         (BMI270_REG_FIFO_WTM_0, lo), (BMI270_REG_FIFO_WTM_1, hi)] ∧
      lo < 256 ∧ hi < 32 ∧
      lo + 256 * hi = min config.watermark 2047 := by
  unfold bmi270_configure_fifo
  rw [if_pos hw]
  refine ⟨_, _, _, _, rfl, ?_, ?_, ?_⟩
  · rw [and_255_eq]
    exact Nat.mod_lt _ (by decide)
  · rw [and_31_eq]
    exact Nat.mod_lt _ (by decide)
  · rw [and_255_eq, and_31_eq, Nat.shiftRight_eq_div_pow]
    split <;> omega

/-- C7: for every pair of raw bytes (lo, hi) read from the FIFO length
registers, `bmi270_get_fifo_length` reports the little-endian combination
`hi*256 + lo` masked to 11 bits (mod 2048); in particular the raw pair
0xFF, 0xFF yields exactly 2047, never 65535. -/
theorem get_fifo_length_masks_to_11_bits (lo hi : Nat) (hlo : lo < 256) (hhi : hi < 256) :
    bmi270_get_fifo_length lo hi = (hi * 256 + lo) % 2048 ∧
    bmi270_get_fifo_length 0xFF 0xFF = 2047 := by
  constructor
  · unfold bmi270_get_fifo_length
    rw [shiftLeft8_lor hi lo hlo]
    have h2047 : (0x07FF : Nat) = 2047 := rfl
    rw [h2047, and_2047_eq]
    ring_nf
  · decide

theorem uploadEvents_all (d : SpiDev) (n : Nat) :
    ∀ ev ∈ uploadEvents d n, ∃ reg val, ev = BusEv.wr (currentTiming d) reg val := by
  induction n with
  | zero => intro ev h; simp [uploadEvents] at h
  | succ n ih =>
    intro ev h
    simp only [uploadEvents, List.mem_append] at h
    rcases h with h | h
    · exact ih ev h
    · simp only [uploadChunk, bmi270_write_register, List.mem_cons, List.mem_singleton,
        List.not_mem_nil, or_false] at h
      rcases h with h | h | h <;> exact ⟨_, _, h⟩

theorem poll_all_reads (status : Nat → Nat) (d : SpiDev) (fuel : Nat) :
    ∀ ev ∈ (pollInternalStatus status d fuel).1,
      ∃ reg val, ev = BusEv.rd (currentTiming d) reg val := by
  induction fuel with
  | zero => intro ev h; simp [pollInternalStatus] at h
  | succ fuel ih =>
    intro ev h
    simp only [pollInternalStatus, bmi270_read_register] at h
    split at h
    · simp only [List.mem_singleton] at h
      exact ⟨_, _, h⟩
    · split at h
      · simp only [List.mem_singleton] at h
        exact ⟨_, _, h⟩
      · simp only [List.mem_cons] at h
        rcases h with h | h
        · exact ⟨_, _, h⟩
        · exact ih ev h

theorem poll_ok_read (status : Nat → Nat) (d : SpiDev) (fuel : Nat) :
    (pollInternalStatus status d fuel).2 = true →
    ∃ v, BusEv.rd (currentTiming d) BMI270_REG_INTERNAL_STATUS v ∈
        (pollInternalStatus status d fuel).1 ∧
      v &&& BMI270_INTERNAL_STATUS_MSG_MASK = BMI270_INTERNAL_STATUS_MSG_INIT_OK := by
  induction fuel with
  | zero => intro h; simp [pollInternalStatus] at h
  | succ fuel ih =>
    intro h
    simp only [pollInternalStatus, bmi270_read_register] at h
    split at h
    · rename_i hcond
      refine ⟨status fuel, ?_, hcond⟩
      simp [pollInternalStatus, bmi270_read_register, hcond]
    · split at h
      · simp at h
      · rename_i h1 h2
        obtain ⟨v, hv, hok⟩ := ih h
        refine ⟨v, ?_, hok⟩
        simp only [pollInternalStatus, bmi270_read_register, h1, h2, if_false, List.mem_cons]
        exact Or.inr hv

/-- Every event the bring-up sequence emits before the mark is a
suspend-timing write or a suspend-timing read (when starting from a handle
with `init_complete = false`). -/
theorem preTrace_char (status : Nat → Nat) (fuel : Nat) (ev : BusEv)
    (h : ev ∈ preTrace status ⟨false⟩ fuel) :
    (∃ r v, ev = BusEv.wr Timing.suspend r v) ∨ (∃ r v, ev = BusEv.rd Timing.suspend r v) := by
  have hts : currentTiming ⟨false⟩ = Timing.suspend := rfl
  unfold preTrace at h
  simp only [bmi270_write_register, hts, List.mem_append, List.mem_cons,
    List.not_mem_nil, or_false] at h
  rcases h with (h | h | h | (h | h)) | h
  · exact Or.inl ⟨_, _, h⟩
  · exact Or.inl ⟨_, _, h⟩
  · exact Or.inl ⟨_, _, h⟩
  · obtain ⟨r, v, hev⟩ := uploadEvents_all ⟨false⟩ _ ev h
    rw [hts] at hev
    exact Or.inl ⟨_, _, hev⟩
  · exact Or.inl ⟨_, _, h⟩
  · obtain ⟨r, v, hev⟩ := poll_all_reads status ⟨false⟩ fuel ev h
    rw [hts] at hev
    exact Or.inr ⟨_, _, hev⟩

/-- C8 (spec-modelled: the bus layer and bring-up sequence are not in the
repository snapshot): for every chip-status oracle and poll budget, starting
from a handle with `init_complete = false`: when bring-up reaches Ready, the
handle is flipped to normal timing, the trace contains exactly one
`mark_bring_up_complete` event (mark occurs in neither surrounding segment),
every register write before the mark runs in SUSPEND timing, every register
write after it runs in NORMAL timing, and an INIT_OK read of the internal
status register precedes the mark; when bring-up fails, the handle is
unchanged and no mark is ever emitted; and no bus operation modifies the
handle — only `bmi270_set_init_complete` does, and it only sets the flag,
so the transition is irreversible. -/
theorem bring_up_mark_discipline (status : Nat → Nat) (fuel : Nat) :
    ((bring_up status ⟨false⟩ fuel).2.2 = true →
      (bring_up status ⟨false⟩ fuel).2.1.init_complete = true ∧
      ∃ pre post,
        (bring_up status ⟨false⟩ fuel).1 = pre ++ BusEv.mark :: post ∧
        BusEv.mark ∉ pre ∧ BusEv.mark ∉ post ∧
        (∀ ev ∈ pre, ∀ t reg val, ev = BusEv.wr t reg val → t = Timing.suspend) ∧
        (∀ ev ∈ post, ∀ t reg val, ev = BusEv.wr t reg val → t = Timing.normal) ∧
        (∃ ev ∈ pre, isInitOkRead ev)) ∧
    ((bring_up status ⟨false⟩ fuel).2.2 = false →
      (bring_up status ⟨false⟩ fuel).2.1 = ⟨false⟩ ∧
      BusEv.mark ∉ (bring_up status ⟨false⟩ fuel).1) ∧
    (∀ d reg val, (bmi270_write_register d reg val).2 = d ∧
      (bmi270_read_register d reg val).2 = d ∧
      (bmi270_set_init_complete d).init_complete = true) := by
  have hts : currentTiming ⟨false⟩ = Timing.suspend := rfl
  by_cases hP : (pollInternalStatus status ⟨false⟩ fuel).2 = true
  · have hres : bring_up status ⟨false⟩ fuel =
        (preTrace status ⟨false⟩ fuel ++
          BusEv.mark :: postTrace (bmi270_set_init_complete ⟨false⟩),
          bmi270_set_init_complete ⟨false⟩, true) := by
      simp [bring_up, hP]
    refine ⟨fun _ => ?_, fun hno => ?_, fun d reg val => ⟨rfl, rfl, rfl⟩⟩
    · refine ⟨by rw [hres]; rfl, ?_⟩
      refine ⟨preTrace status ⟨false⟩ fuel, postTrace (bmi270_set_init_complete ⟨false⟩),
        by rw [hres], ?_, ?_, ?_, ?_, ?_⟩
      · intro hmem
        rcases preTrace_char status fuel BusEv.mark hmem with ⟨r, v, h⟩ | ⟨r, v, h⟩ <;>
          exact BusEv.noConfusion h
      · intro hmem
        have htn : currentTiming (bmi270_set_init_complete ⟨false⟩) = Timing.normal := rfl
        simp only [postTrace, bmi270_write_register, htn, List.mem_cons,
          List.not_mem_nil, or_false] at hmem
        rcases hmem with h | h <;> exact BusEv.noConfusion h
      · intro ev hmem t reg val hev
        rcases preTrace_char status fuel ev hmem with ⟨r, v, h⟩ | ⟨r, v, h⟩
        · have hw := hev.symm.trans h
          injection hw
        · exact absurd (hev.symm.trans h) (by simp)
      · intro ev hmem t reg val hev
        have htn : currentTiming (bmi270_set_init_complete ⟨false⟩) = Timing.normal := rfl
        simp only [postTrace, bmi270_write_register, htn, List.mem_cons,
          List.not_mem_nil, or_false] at hmem
        rcases hmem with h | h
        · have hw := hev.symm.trans h
          injection hw
        · have hw := hev.symm.trans h
          injection hw
      · obtain ⟨v, hv, hok⟩ := poll_ok_read status ⟨false⟩ fuel hP
        rw [hts] at hv
        refine ⟨BusEv.rd Timing.suspend BMI270_REG_INTERNAL_STATUS v, ?_, rfl, rfl, hok⟩
        unfold preTrace
        exact List.mem_append.mpr (Or.inr hv)
    · rw [hres] at hno
      exact absurd hno (by simp)
  · have hPf : (pollInternalStatus status ⟨false⟩ fuel).2 = false := by
      revert hP
      cases (pollInternalStatus status ⟨false⟩ fuel).2 <;> simp
    have hres : bring_up status ⟨false⟩ fuel =
        (preTrace status ⟨false⟩ fuel, ⟨false⟩, false) := by
      simp [bring_up, hPf]
    refine ⟨fun hok => ?_, fun _ => ?_, fun d reg val => ⟨rfl, rfl, rfl⟩⟩
    · rw [hres] at hok
      exact absurd hok (by simp)
    · refine ⟨by rw [hres], ?_⟩
      intro hmem
      rw [show (bring_up status ⟨false⟩ fuel).1 = preTrace status ⟨false⟩ fuel from
        congrArg Prod.fst hres] at hmem
      rcases preTrace_char status fuel BusEv.mark hmem with ⟨r, v, h⟩ | ⟨r, v, h⟩ <;>
        exact BusEv.noConfusion h

theorem rd16_isLE16x (data : List Nat) (p q : Nat) (hq : q = p + 1) :
    IsLE16 (byteAt data p) (byteAt data q) (rd16 data p) := by
  subst hq
  exact rd16_isLE16 data p

/-- C1: for every buffer whose byte at the cursor is the combined-frame
header 0x8C with at least 13 remaining bytes, `bmi270_parse_fifo_frame`
succeeds and assigns the gyroscope triple from bytes 1-6 (x from 1-2, y from
3-4, z from 5-6) and the accelerometer triple from bytes 7-12 (x from 7-8,
y from 9-10, z from 11-12), each as the little-endian signed 16-bit value of
its two source bytes — the positions are pinned per field, so the two
sensors are never swapped. -/
theorem parse_combined_frame_field_layout (data : List Nat) (off len : Nat) (f : FifoFrame)
    (hh : byteAt data off = BMI270_FIFO_HEAD_ACC_GYR) (hlen : 13 ≤ len) :
    (bmi270_parse_fifo_frame data ⟨off, len⟩ f).1 = EspErr.ESP_OK ∧
    (bmi270_parse_fifo_frame data ⟨off, len⟩ f).2.2.type = BMI270_FIFO_FRAME_ACC_GYR ∧
    IsLE16 (byteAt data (off + 1)) (byteAt data (off + 2))
      (bmi270_parse_fifo_frame data ⟨off, len⟩ f).2.2.gyr.x ∧
    IsLE16 (byteAt data (off + 3)) (byteAt data (off + 4))
      (bmi270_parse_fifo_frame data ⟨off, len⟩ f).2.2.gyr.y ∧
    IsLE16 (byteAt data (off + 5)) (byteAt data (off + 6))
      (bmi270_parse_fifo_frame data ⟨off, len⟩ f).2.2.gyr.z ∧
    IsLE16 (byteAt data (off + 7)) (byteAt data (off + 8))
      (bmi270_parse_fifo_frame data ⟨off, len⟩ f).2.2.acc.x ∧
    IsLE16 (byteAt data (off + 9)) (byteAt data (off + 10))
      (bmi270_parse_fifo_frame data ⟨off, len⟩ f).2.2.acc.y ∧
    IsLE16 (byteAt data (off + 11)) (byteAt data (off + 12))
      (bmi270_parse_fifo_frame data ⟨off, len⟩ f).2.2.acc.z := by
  rw [parse_accGyr_step data off len f hh hlen]
  refine ⟨rfl, rfl, ?_, ?_, ?_, ?_, ?_, ?_⟩
  · exact rd16_isLE16x data (off + 1) (off + 2) (by omega)
  · exact rd16_isLE16x data (off + 3) (off + 4) (by omega)
  · exact rd16_isLE16x data (off + 5) (off + 6) (by omega)
  · exact rd16_isLE16x data (off + 7) (off + 8) (by omega)
  · exact rd16_isLE16x data (off + 9) (off + 10) (by omega)
  · exact rd16_isLE16x data (off + 11) (off + 12) (by omega)

/-- C2 (code evaluated at the failing input): on the one-byte buffer
`[0x00]`, whose header is unknown, `bmi270_parse_fifo_frame` reports
`ESP_ERR_INVALID_RESPONSE` but leaves the cursor at `⟨0, 1⟩` — it does NOT
advance by one byte as the claim states, because the `return` in the default
switch arm precedes the cursor-advance code. -/
theorem parse_unknown_header_does_not_advance :
    (bmi270_parse_fifo_frame [0x00] ⟨0, 1⟩ emptyFrame).1 = EspErr.ESP_ERR_INVALID_RESPONSE ∧
    (bmi270_parse_fifo_frame [0x00] ⟨0, 1⟩ emptyFrame).2.1 = ⟨0, 1⟩ ∧
    (bmi270_parse_fifo_frame [0x00] ⟨0, 1⟩ emptyFrame).2.2.type = BMI270_FIFO_FRAME_UNKNOWN := by
  decide

/-- C3: for every buffer whose first byte is a data-frame header (0x84,
0x88 or 0x8C) but whose remaining length is smaller than that frame's
declared size (7, 7 or 13 — `frameSizeOf`), `bmi270_parse_fifo_frame`
returns `ESP_ERR_INVALID_SIZE` and leaves the cursor exactly as passed. -/
theorem parse_truncated_frame_no_advance (data : List Nat) (c : Cursor) (f : FifoFrame)
    (h0 : 1 ≤ c.len)
    (hh : byteAt data c.off = BMI270_FIFO_HEAD_ACC ∨
          byteAt data c.off = BMI270_FIFO_HEAD_GYR ∨
          byteAt data c.off = BMI270_FIFO_HEAD_ACC_GYR)
    (hlen : c.len < frameSizeOf (byteAt data c.off)) :
    (bmi270_parse_fifo_frame data c f).1 = EspErr.ESP_ERR_INVALID_SIZE ∧
    (bmi270_parse_fifo_frame data c f).2.1 = c := by
  obtain ⟨off, len⟩ := c
  rw [parse_truncated_step data off len f hh h0 hlen]
  exact ⟨rfl, rfl⟩

/-- C5, counterexample: decoding the one-byte sensor-time frame `[0x44]`
succeeds and consumes 1 byte, but the returned frame is tagged
`BMI270_FIFO_FRAME_SKIP`, not `BMI270_FIFO_FRAME_SENSOR_TIME` — the three
marker headers do NOT each get their own tagged variant. -/
theorem sensor_time_frame_tagged_skip_counterexample :
    (bmi270_parse_fifo_frame [0x44] ⟨0, 1⟩ emptyFrame).1 = EspErr.ESP_OK ∧
    (bmi270_parse_fifo_frame [0x44] ⟨0, 1⟩ emptyFrame).2.2.type = BMI270_FIFO_FRAME_SKIP ∧
    (bmi270_parse_fifo_frame [0x44] ⟨0, 1⟩ emptyFrame).2.2.type ≠
      BMI270_FIFO_FRAME_SENSOR_TIME ∧
    (bmi270_parse_fifo_frame [0x44] ⟨0, 1⟩ emptyFrame).2.1 = ⟨1, 0⟩ := by
  decide

/-- C5, amended: each marker frame (header 0x40 SKIP, 0x44 SENSOR-TIME,
0x48 CONFIG-CHANGE) decodes successfully and consumes exactly 1 byte of the
buffer, but all three are returned with the single tag
`BMI270_FIFO_FRAME_SKIP` (the implementation does not distinguish them in
the returned frame type). -/
theorem parse_marker_frames_tagged_skip (data : List Nat) (c : Cursor) (f : FifoFrame)
    (hh : byteAt data c.off = BMI270_FIFO_HEAD_SKIP ∨
          byteAt data c.off = BMI270_FIFO_HEAD_SENSOR_TIME ∨
          byteAt data c.off = BMI270_FIFO_HEAD_CONFIG_CHANGE)
    (hlen : 1 ≤ c.len) :
    (bmi270_parse_fifo_frame data c f).1 = EspErr.ESP_OK ∧
    (bmi270_parse_fifo_frame data c f).2.2.type = BMI270_FIFO_FRAME_SKIP ∧
    (bmi270_parse_fifo_frame data c f).2.1.off = c.off + 1 ∧
    (bmi270_parse_fifo_frame data c f).2.1.len = c.len - 1 := by
  obtain ⟨off, len⟩ := c
  rw [parse_marker_step data off len f hh hlen]
  exact ⟨rfl, rfl, rfl, rfl⟩

/-- C9: error atomicity — whenever `bmi270_parse_fifo_frame` returns any
value other than `ESP_OK` (no data, truncated data frame, or unknown
header), the cursor (buffer offset and remaining length) is left exactly as
it was passed in. -/
theorem parse_error_leaves_cursor_unchanged (data : List Nat) (c : Cursor) (f : FifoFrame)
    (h : (bmi270_parse_fifo_frame data c f).1 ≠ EspErr.ESP_OK) :
    (bmi270_parse_fifo_frame data c f).2.1 = c := by
  rcases parse_cases data c f with ⟨h1, _, _⟩ | ⟨_, h2⟩
  · exact absurd h1 h
  · exact h2

/-- C10: cursor conservation — on every `ESP_OK` return the offset
advances by exactly the consumed frame's byte length (per `frameSizeOf`:
13 for 0x8C, 7 for 0x84/0x88, 1 for the markers) and the remaining length
decreases by the same amount; on every call the window end (offset plus
remaining length) is preserved and the remaining length never increases;
and the result depends only on the bytes of the window `[off, off+len)`:
any buffer presenting the same window bytes yields the same error, the same
frame, the same remaining length and the same consumed byte count. -/
theorem parse_cursor_conservation (data : List Nat) (c : Cursor) (f : FifoFrame) :
    ((bmi270_parse_fifo_frame data c f).1 = EspErr.ESP_OK →
      (bmi270_parse_fifo_frame data c f).2.1.off =
        c.off + frameSizeOf (byteAt data c.off) ∧
      (bmi270_parse_fifo_frame data c f).2.1.len + frameSizeOf (byteAt data c.off) = c.len) ∧
    (bmi270_parse_fifo_frame data c f).2.1.off + (bmi270_parse_fifo_frame data c f).2.1.len =
      c.off + c.len ∧
    (bmi270_parse_fifo_frame data c f).2.1.len ≤ c.len ∧
    (∀ data₂ o₂,
      (data.drop c.off).take c.len = (data₂.drop o₂).take c.len →
      (bmi270_parse_fifo_frame data₂ ⟨o₂, c.len⟩ f).1 =
        (bmi270_parse_fifo_frame data c f).1 ∧
      (bmi270_parse_fifo_frame data₂ ⟨o₂, c.len⟩ f).2.2 =
        (bmi270_parse_fifo_frame data c f).2.2 ∧
      (bmi270_parse_fifo_frame data₂ ⟨o₂, c.len⟩ f).2.1.len =
        (bmi270_parse_fifo_frame data c f).2.1.len ∧
      (bmi270_parse_fifo_frame data₂ ⟨o₂, c.len⟩ f).2.1.off - o₂ =
        (bmi270_parse_fifo_frame data c f).2.1.off - c.off) := by
  obtain ⟨off, len⟩ := c
  refine ⟨?_, ?_, ?_, ?_⟩
  · intro hok
    rcases parse_cases data ⟨off, len⟩ f with ⟨_, h2, h3⟩ | ⟨h1, _⟩
    · exact ⟨h2, h3⟩
    · exact absurd hok h1
  · rcases parse_cases data ⟨off, len⟩ f with ⟨_, h2, h3⟩ | ⟨_, h2⟩
    · omega
    · rw [h2]
  · rcases parse_cases data ⟨off, len⟩ f with ⟨_, h2, h3⟩ | ⟨_, h2⟩
    · omega
    · rw [h2]
  · intro data₂ o₂ hw
    exact parse_window_agree data data₂ off o₂ len f hw

theorem parse_combined_frame_field_layout_witness :
    byteAt c1data 0 = BMI270_FIFO_HEAD_ACC_GYR ∧ 13 ≤ 13 ∧
    ((bmi270_parse_fifo_frame c1data ⟨0, 13⟩ emptyFrame).1 = EspErr.ESP_OK ∧
     (bmi270_parse_fifo_frame c1data ⟨0, 13⟩ emptyFrame).2.2.type = BMI270_FIFO_FRAME_ACC_GYR ∧
     IsLE16 (byteAt c1data 1) (byteAt c1data 2)
       (bmi270_parse_fifo_frame c1data ⟨0, 13⟩ emptyFrame).2.2.gyr.x ∧
     IsLE16 (byteAt c1data 3) (byteAt c1data 4)
       (bmi270_parse_fifo_frame c1data ⟨0, 13⟩ emptyFrame).2.2.gyr.y ∧
     IsLE16 (byteAt c1data 5) (byteAt c1data 6)
       (bmi270_parse_fifo_frame c1data ⟨0, 13⟩ emptyFrame).2.2.gyr.z ∧
     IsLE16 (byteAt c1data 7) (byteAt c1data 8)
       (bmi270_parse_fifo_frame c1data ⟨0, 13⟩ emptyFrame).2.2.acc.x ∧
     IsLE16 (byteAt c1data 9) (byteAt c1data 10)
       (bmi270_parse_fifo_frame c1data ⟨0, 13⟩ emptyFrame).2.2.acc.y ∧
     IsLE16 (byteAt c1data 11) (byteAt c1data 12)
       (bmi270_parse_fifo_frame c1data ⟨0, 13⟩ emptyFrame).2.2.acc.z) :=
  ⟨by decide, by decide, parse_combined_frame_field_layout c1data 0 13 emptyFrame (by decide) (by decide)⟩

theorem parse_truncated_frame_no_advance_witness :
    1 ≤ 3 ∧
    (byteAt [0x8C, 0, 0] 0 = BMI270_FIFO_HEAD_ACC ∨
     byteAt [0x8C, 0, 0] 0 = BMI270_FIFO_HEAD_GYR ∨
     byteAt [0x8C, 0, 0] 0 = BMI270_FIFO_HEAD_ACC_GYR) ∧
    3 < frameSizeOf (byteAt [0x8C, 0, 0] 0) ∧
    ((bmi270_parse_fifo_frame [0x8C, 0, 0] ⟨0, 3⟩ emptyFrame).1 =
       EspErr.ESP_ERR_INVALID_SIZE ∧
     (bmi270_parse_fifo_frame [0x8C, 0, 0] ⟨0, 3⟩ emptyFrame).2.1 = ⟨0, 3⟩) :=
  ⟨by decide, by decide, by decide,
   parse_truncated_frame_no_advance [0x8C, 0, 0] ⟨0, 3⟩ emptyFrame (by decide) (by decide) (by decide)⟩

theorem parse_homogeneous_acc_gyr_stream_witness :
    (∀ j, j < 2 → byteAt c4data (0 + 13 * j) = BMI270_FIFO_HEAD_ACC_GYR) ∧
    ((parseTrace c4data 2 ⟨0, 13 * 2⟩ emptyFrame).1 =
       List.replicate 2 (EspErr.ESP_OK, BMI270_FIFO_FRAME_ACC_GYR) ∧
     (parseTrace c4data 2 ⟨0, 13 * 2⟩ emptyFrame).2.1 = ⟨0 + 13 * 2, 0⟩ ∧
     (bmi270_parse_fifo_frame c4data (parseTrace c4data 2 ⟨0, 13 * 2⟩ emptyFrame).2.1
        (parseTrace c4data 2 ⟨0, 13 * 2⟩ emptyFrame).2.2).1 = EspErr.ESP_ERR_NOT_FOUND) := by
  have hj : ∀ j, j < 2 → byteAt c4data (0 + 13 * j) = BMI270_FIFO_HEAD_ACC_GYR := by
    intro j hjlt
    interval_cases j <;> decide
  exact ⟨hj, parse_homogeneous_acc_gyr_stream c4data 2 0 emptyFrame hj⟩

theorem parse_marker_frames_tagged_skip_witness :
    (byteAt [0x48] 0 = BMI270_FIFO_HEAD_SKIP ∨
     byteAt [0x48] 0 = BMI270_FIFO_HEAD_SENSOR_TIME ∨
     byteAt [0x48] 0 = BMI270_FIFO_HEAD_CONFIG_CHANGE) ∧ 1 ≤ 1 ∧
    ((bmi270_parse_fifo_frame [0x48] ⟨0, 1⟩ emptyFrame).1 = EspErr.ESP_OK ∧
     (bmi270_parse_fifo_frame [0x48] ⟨0, 1⟩ emptyFrame).2.2.type = BMI270_FIFO_FRAME_SKIP ∧
     (bmi270_parse_fifo_frame [0x48] ⟨0, 1⟩ emptyFrame).2.1.off = 0 + 1 ∧
     (bmi270_parse_fifo_frame [0x48] ⟨0, 1⟩ emptyFrame).2.1.len = 1 - 1) :=
  ⟨by decide, by decide, parse_marker_frames_tagged_skip [0x48] ⟨0, 1⟩ emptyFrame (by decide) (by decide)⟩

theorem configure_fifo_watermark_roundtrip_witness :
    0 < cfg512.watermark ∧ 0 < cfg3000.watermark ∧
    (∃ c0 c1 lo hi,
      bmi270_configure_fifo cfg512 =
        [(BMI270_REG_FIFO_CONFIG_0, c0), (BMI270_REG_FIFO_CONFIG_1, c1),
         (BMI270_REG_FIFO_WTM_0, lo), (BMI270_REG_FIFO_WTM_1, hi)] ∧
      lo < 256 ∧ hi < 32 ∧ lo + 256 * hi = min cfg512.watermark 2047) ∧
    (∃ c0 c1 lo hi,
      bmi270_configure_fifo cfg3000 =
        [(BMI270_REG_FIFO_CONFIG_0, c0), (BMI270_REG_FIFO_CONFIG_1, c1),
         (BMI270_REG_FIFO_WTM_0, lo), (BMI270_REG_FIFO_WTM_1, hi)] ∧
      lo < 256 ∧ hi < 32 ∧ lo + 256 * hi = min cfg3000.watermark 2047) :=
  ⟨by decide, by decide, configure_fifo_watermark_roundtrip cfg512 (by decide), configure_fifo_watermark_roundtrip cfg3000 (by decide)⟩

theorem get_fifo_length_masks_to_11_bits_witness :
    (255 : Nat) < 256 ∧ (255 : Nat) < 256 ∧
    (bmi270_get_fifo_length 255 255 = (255 * 256 + 255) % 2048 ∧
     bmi270_get_fifo_length 0xFF 0xFF = 2047) :=
  ⟨by decide, by decide, get_fifo_length_masks_to_11_bits 255 255 (by decide) (by decide)⟩

theorem bring_up_mark_discipline_witness :
    ((bring_up okStatus ⟨false⟩ 1).2.2 = true →
      (bring_up okStatus ⟨false⟩ 1).2.1.init_complete = true ∧
      ∃ pre post,
        (bring_up okStatus ⟨false⟩ 1).1 = pre ++ BusEv.mark :: post ∧
        BusEv.mark ∉ pre ∧ BusEv.mark ∉ post ∧
        (∀ ev ∈ pre, ∀ t reg val, ev = BusEv.wr t reg val → t = Timing.suspend) ∧
        (∀ ev ∈ post, ∀ t reg val, ev = BusEv.wr t reg val → t = Timing.normal) ∧
        (∃ ev ∈ pre, isInitOkRead ev)) ∧
    ((bring_up okStatus ⟨false⟩ 1).2.2 = false →
      (bring_up okStatus ⟨false⟩ 1).2.1 = ⟨false⟩ ∧
      BusEv.mark ∉ (bring_up okStatus ⟨false⟩ 1).1) ∧
    (∀ d reg val, (bmi270_write_register d reg val).2 = d ∧
      (bmi270_read_register d reg val).2 = d ∧
      (bmi270_set_init_complete d).init_complete = true) :=
  bring_up_mark_discipline okStatus 1

theorem parse_error_leaves_cursor_unchanged_witness :
    (bmi270_parse_fifo_frame [0x13] ⟨0, 1⟩ emptyFrame).1 ≠ EspErr.ESP_OK ∧
    (bmi270_parse_fifo_frame [0x13] ⟨0, 1⟩ emptyFrame).2.1 = ⟨0, 1⟩ :=
  ⟨by decide, parse_error_leaves_cursor_unchanged [0x13] ⟨0, 1⟩ emptyFrame (by decide)⟩

theorem parse_cursor_conservation_witness :
    ((bmi270_parse_fifo_frame c10data ⟨0, 7⟩ emptyFrame).1 = EspErr.ESP_OK →
      (bmi270_parse_fifo_frame c10data ⟨0, 7⟩ emptyFrame).2.1.off =
        0 + frameSizeOf (byteAt c10data 0) ∧
      (bmi270_parse_fifo_frame c10data ⟨0, 7⟩ emptyFrame).2.1.len +
        frameSizeOf (byteAt c10data 0) = 7) ∧
    (bmi270_parse_fifo_frame c10data ⟨0, 7⟩ emptyFrame).2.1.off +
      (bmi270_parse_fifo_frame c10data ⟨0, 7⟩ emptyFrame).2.1.len = 0 + 7 ∧
    (bmi270_parse_fifo_frame c10data ⟨0, 7⟩ emptyFrame).2.1.len ≤ 7 ∧
    (∀ data₂ o₂,
      (c10data.drop 0).take 7 = (data₂.drop o₂).take 7 →
      (bmi270_parse_fifo_frame data₂ ⟨o₂, 7⟩ emptyFrame).1 =
        (bmi270_parse_fifo_frame c10data ⟨0, 7⟩ emptyFrame).1 ∧
      (bmi270_parse_fifo_frame data₂ ⟨o₂, 7⟩ emptyFrame).2.2 =
        (bmi270_parse_fifo_frame c10data ⟨0, 7⟩ emptyFrame).2.2 ∧
      (bmi270_parse_fifo_frame data₂ ⟨o₂, 7⟩ emptyFrame).2.1.len =
        (bmi270_parse_fifo_frame c10data ⟨0, 7⟩ emptyFrame).2.1.len ∧
      (bmi270_parse_fifo_frame data₂ ⟨o₂, 7⟩ emptyFrame).2.1.off - o₂ =
        (bmi270_parse_fifo_frame c10data ⟨0, 7⟩ emptyFrame).2.1.off - 0) :=
  parse_cursor_conservation c10data ⟨0, 7⟩ emptyFrame

end BMI270
